import Mathlib

/-!
Shallow embedding of the RABIESRESQ clinic-management core (src/app.py):
the pre-screening risk classifier, the case/appointment lifecycle
maintenance sweep, the staff transition operations (approve, remove,
complete, archive) and the intake submission path, together with theorems
about them.

Conventions of the embedding:
* SQL rows become Lean structures; a table is a `List` of rows.
* `LOWER(COALESCE(s, d))` becomes `strLower (s.getD d)`, with executable
  character-list implementations of lower-casing and stripping.
* `datetime(x)` values are minutes on a linear clock (`Int`); the SQLite
  modifier `'-10 hours'` becomes `now - 10 * 60`.
* An SQL `UPDATE t SET f = v WHERE P` becomes a `List.map` that rewrites
  exactly the rows satisfying `P`; its `rowcount` is the number of rows
  satisfying `P` (`List.filter`/`List.length`), matching sqlite3 semantics.
-/

namespace RabiesResq

/-- A row of the `cases` table, with the columns the intake path inserts
(src/app.py lines 633-656). -/
structure CaseRow where
  id : Nat
  patient_id : Nat
  clinic_id : Nat
  exposure_date : String
  exposure_time : Option String
  place_of_exposure : String
  affected_area : String
  type_of_exposure : String
  animal_detail : String
  animal_condition : String
  risk_level : String
  case_status : Option String
  tetanus_prophylaxis_status : String
deriving DecidableEq

/-- A row of the `appointments` table (columns inserted at src/app.py
lines 687-702). `appointment_datetime` is minutes on a linear clock. -/
structure AppointmentRow where
  id : Nat
  patient_id : Nat
  clinic_id : Nat
  appointment_datetime : Int
  status : Option String
  type : String
  case_id : Nat
deriving DecidableEq

/-- A row of the `pre_screening_details` table (the columns relevant to
the claims; src/app.py lines 660-679). -/
structure PreScreeningRow where
  case_id : Nat
  wound_description : Option String
  bleeding_type : String
  local_treatment : Option String
  patient_prev_immunization : Option String
deriving DecidableEq

/-- The database state the lifecycle operations act on. -/
structure DB where
  cases : List CaseRow
  appointments : List AppointmentRow
deriving DecidableEq

/-- Executable lower-casing (SQL `LOWER` / the lower-casing the queries
rely on), written over the character list so the kernel can evaluate it. -/
def strLower (s : String) : String := String.mk (s.data.map Char.toLower)

/-- The whitespace set of Python's `str.strip()` (ASCII subset). -/
def isSpaceChar (c : Char) : Bool := c == ' ' || c == '\t' || c == '\n' || c == '\r'

/-- Executable two-sided whitespace strip (Python's `str.strip()`),
written over the character list so the kernel can evaluate it. -/
def strTrim (s : String) : String :=
  String.mk (((s.data.dropWhile isSpaceChar).reverse.dropWhile isSpaceChar).reverse)

/-- Python's `int(str)` on an already-stripped string: an optional sign
followed by at least one digit, else failure (`ValueError`). -/
def parseInt (s : String) : Option Int :=
  match s.data with
  | [] => none
  | c :: rest =>
    let signDigits : Int × List Char :=
      if c == '-' then (-1, rest) else if c == '+' then (1, rest) else (1, c :: rest)
    if signDigits.2 = [] then none
    else if signDigits.2.all Char.isDigit then
      some (signDigits.1 *
        (signDigits.2.foldl (fun n d => n * 10 + (d.toNat - 48)) (0 : Nat) : Int))
    else none

/-- SQL `LOWER(COALESCE(s, d))`. -/
def lcoal (s : Option String) (d : String) : String := strLower (s.getD d)

/-- Function `classify_pre_screening_risk` (src/app.py lines 35-80), transliterated:
trim every input (absent = empty string), then an ordered cascade,
Category III first, then Category II, else Category I. -/
def classify_pre_screening_risk (type_of_exposure affected_area
    wound_description bleeding_type animal_status animal_vaccination
    patient_prev_immunization : Option String) : String :=
  let type_of_exposure := strTrim (type_of_exposure.getD "")
  let affected_area := strTrim (affected_area.getD "")
  let wound_description := strTrim (wound_description.getD "")
  let bleeding_type := strTrim (bleeding_type.getD "")
  let animal_status := strTrim (animal_status.getD "")
  let _animal_vaccination := strTrim (animal_vaccination.getD "")
  let _patient_prev_immunization := strTrim (patient_prev_immunization.getD "")
  let high_risk_exposures := ["Bite", "Contamination of Mucous Membrane"]
  let high_risk_areas := ["Head/Face", "Neck"]
  let severe_wounds := ["Punctured", "Lacerated", "Avulsed"]
  let high_risk_animal_status := ["Sick", "Died", "Lost"]
  if high_risk_exposures.contains type_of_exposure
      || high_risk_areas.contains affected_area
      || ["Spontaneous", "Both spontaneous and induced"].contains bleeding_type
      || severe_wounds.contains wound_description
      || high_risk_animal_status.contains animal_status then
    "Category III"
  else if ["Scratch", "Non-Bite"].contains type_of_exposure
      || ["Abrasion"].contains wound_description
      || bleeding_type == "Induced" then
    "Category II"
  else
    "Category I"

/-- The spec's Category-III rule, written from the spec's own wording
(spec §4.1 rule 1), over the trimmed inputs. -/
def specCatIIITrigger (type_of_exposure affected_area wound_description
    bleeding_type animal_status : String) : Bool :=
  (type_of_exposure == "Bite" || type_of_exposure == "Contamination of Mucous Membrane")
  || (affected_area == "Head/Face" || affected_area == "Neck")
  || (bleeding_type == "Spontaneous" || bleeding_type == "Both spontaneous and induced")
  || (wound_description == "Punctured" || wound_description == "Lacerated"
        || wound_description == "Avulsed")
  || (animal_status == "Sick" || animal_status == "Died" || animal_status == "Lost")

/-- The spec's Category-II rule, written from the spec's own wording
(spec §4.1 rule 2), over the trimmed inputs. -/
def specCatIITrigger (type_of_exposure wound_description bleeding_type : String) : Bool :=
  (type_of_exposure == "Scratch" || type_of_exposure == "Non-Bite")
  || wound_description == "Abrasion"
  || bleeding_type == "Induced"

/-- The spec's classifier: trim (absent = empty), then the ordered cascade
III / II / I (spec §4.1). -/
def specClassify (type_of_exposure affected_area wound_description
    bleeding_type animal_status : Option String) : String :=
  let e := strTrim (type_of_exposure.getD "")
  let ar := strTrim (affected_area.getD "")
  let w := strTrim (wound_description.getD "")
  let b := strTrim (bleeding_type.getD "")
  let s := strTrim (animal_status.getD "")
  if specCatIIITrigger e ar w b s then "Category III"
  else if specCatIITrigger e w b then "Category II"
  else "Category I"

/-- C1: for every input (trimmed, absent = empty) the classifier agrees
with the spec's ordered cascade — Category III when any III trigger holds,
else Category II when any II trigger holds, else Category I — and in
particular always returns one of the three categories and never fails
(it is a total function). -/
theorem classify_matches_spec_cascade (e ar w b s v p : Option String) :
    classify_pre_screening_risk e ar w b s v p = specClassify e ar w b s ∧
    (classify_pre_screening_risk e ar w b s v p = "Category III" ∨
     classify_pre_screening_risk e ar w b s v p = "Category II" ∨
     classify_pre_screening_risk e ar w b s v p = "Category I") := by
  constructor
  · simp only [classify_pre_screening_risk, specClassify, specCatIIITrigger,
      specCatIITrigger, List.contains_cons, List.contains_nil, Bool.or_false,
      Bool.or_assoc]
  · simp only [classify_pre_screening_risk]
    split
    · exact Or.inl rfl
    · split
      · exact Or.inr (Or.inl rfl)
      · exact Or.inr (Or.inr rfl)

/-- C9: `animal_vaccination` and `patient_prev_immunization` never
influence the classifier's result — for any fixed values of the other
five inputs, any two values of these two parameters give the same
category (two-run noninterference). -/
theorem classify_noninterference (e ar w b s : Option String)
    (v₁ p₁ v₂ p₂ : Option String) :
    classify_pre_screening_risk e ar w b s v₁ p₁ =
      classify_pre_screening_risk e ar w b s v₂ p₂ := by
  simp only [classify_pre_screening_risk]

/-- SQL `UPDATE appointments SET status = s` applied to one row. -/
def setApptStatus (s : String) (a : AppointmentRow) : AppointmentRow :=
  { a with status := some s }

/-- SQL `UPDATE cases SET case_status = s` applied to one row. -/
def setCaseStatus (s : String) (c : CaseRow) : CaseRow :=
  { c with case_status := some s }

/-- The appointment statuses that keep a slot "live" in the sweep
(`('approved', 'pending', 'queued')` in the SQL). -/
def liveApptStatuses : List String := ["approved", "pending", "queued"]

/-- The `EXISTS` subquery of sweep step 1 (src/app.py lines 218-225):
this appointment belongs to case `c` in `c`'s clinic, is still live, and
is scheduled at least 10 hours in the past. -/
def apptTriggersNoShow (now : Int) (c : CaseRow) (a : AppointmentRow) : Bool :=
  a.case_id == c.id && a.clinic_id == c.clinic_id
    && liveApptStatuses.contains (lcoal a.status "")
    && a.appointment_datetime ≤ now - 10 * 60

/-- The `WHERE` clause of sweep step 1 (src/app.py lines 216-225). -/
def caseToNoShowCond (clinic : Nat) (now : Int) (appts : List AppointmentRow)
    (c : CaseRow) : Bool :=
  c.clinic_id == clinic && lcoal c.case_status "pending" == "pending"
    && appts.any (apptTriggersNoShow now c)

/-- The `WHERE` clause of sweep step 2 (src/app.py lines 235-243): a live
appointment of the clinic, at least 10 hours past, whose case is now
`No Show`. -/
def apptToNoShowCond (clinic : Nat) (now : Int) (cs : List CaseRow)
    (a : AppointmentRow) : Bool :=
  a.clinic_id == clinic && liveApptStatuses.contains (lcoal a.status "")
    && a.appointment_datetime ≤ now - 10 * 60
    && cs.any (fun c => c.id == a.case_id && c.clinic_id == clinic
        && lcoal c.case_status "" == "no show")

/-- The `WHERE` clause of sweep step 3 (src/app.py lines 252-260): a
`No Show` case of the clinic with some appointment at least 24 hours past
(any appointment status). -/
def caseToArchiveCond (clinic : Nat) (now : Int) (appts : List AppointmentRow)
    (c : CaseRow) : Bool :=
  c.clinic_id == clinic && lcoal c.case_status "" == "no show"
    && appts.any (fun a => a.case_id == c.id && a.clinic_id == c.clinic_id
        && a.appointment_datetime ≤ now - 24 * 60)

/-- The `WHERE` clause of sweep step 4 (src/app.py lines 270-276): an
appointment of the clinic whose case is archived. -/
def apptRemoveCond (clinic : Nat) (cs : List CaseRow) (a : AppointmentRow) : Bool :=
  a.clinic_id == clinic
    && cs.any (fun c => c.id == a.case_id && c.clinic_id == clinic
        && lcoal c.case_status "" == "archived")

/-- Sweep step 1's `UPDATE` applied to the cases table. -/
def casesAfterNoShowStep (clinic : Nat) (now : Int) (appts : List AppointmentRow)
    (cs : List CaseRow) : List CaseRow :=
  cs.map fun c => if caseToNoShowCond clinic now appts c then setCaseStatus "No Show" c else c

/-- Sweep step 2's `UPDATE` applied to the appointments table. -/
def apptsAfterNoShowStep (clinic : Nat) (now : Int) (cs : List CaseRow)
    (appts : List AppointmentRow) : List AppointmentRow :=
  appts.map fun a => if apptToNoShowCond clinic now cs a then setApptStatus "No Show" a else a

/-- Sweep step 3's `UPDATE` applied to the cases table. -/
def casesAfterArchiveStep (clinic : Nat) (now : Int) (appts : List AppointmentRow)
    (cs : List CaseRow) : List CaseRow :=
  cs.map fun c => if caseToArchiveCond clinic now appts c then setCaseStatus "archived" c else c

/-- Sweep step 4's `UPDATE` applied to the appointments table. -/
def apptsAfterRemoveStep (clinic : Nat) (cs : List CaseRow)
    (appts : List AppointmentRow) : List AppointmentRow :=
  appts.map fun a => if apptRemoveCond clinic cs a then setApptStatus "Removed" a else a

/-- What `_run_case_status_maintenance` returns, together with the final
database state. -/
structure MaintResult where
  db : DB
  to_no_show : Nat
  archived_from_no_show : Nat
deriving DecidableEq

/-- The `rowcount` of sweep step 1: how many cases move to `No Show`. -/
def toNoShowCount (clinic : Nat) (now : Int) (db : DB) : Nat :=
  (db.cases.filter (caseToNoShowCond clinic now db.appointments)).length

/-- The cases table after sweep step 1. -/
def casesMid (clinic : Nat) (now : Int) (db : DB) : List CaseRow :=
  casesAfterNoShowStep clinic now db.appointments db.cases

/-- The appointments table after sweep step 2 (step 2 runs only when
step 1's rowcount was nonzero: `if to_no_show:` in the source). -/
def apptsMid (clinic : Nat) (now : Int) (db : DB) : List AppointmentRow :=
  if toNoShowCount clinic now db ≠ 0 then
    apptsAfterNoShowStep clinic now (casesMid clinic now db) db.appointments
  else db.appointments

/-- The `rowcount` of sweep step 3: how many `No Show` cases are archived. -/
def archivedCount (clinic : Nat) (now : Int) (db : DB) : Nat :=
  ((casesMid clinic now db).filter
    (caseToArchiveCond clinic now (apptsMid clinic now db))).length

/-- The cases table after sweep step 3. -/
def casesFinal (clinic : Nat) (now : Int) (db : DB) : List CaseRow :=
  casesAfterArchiveStep clinic now (apptsMid clinic now db) (casesMid clinic now db)

/-- The appointments table after sweep step 4 (step 4 runs only when
step 3's rowcount was nonzero: `if archived_from_no_show:`). -/
def apptsFinal (clinic : Nat) (now : Int) (db : DB) : List AppointmentRow :=
  if archivedCount clinic now db ≠ 0 then
    apptsAfterRemoveStep clinic (casesFinal clinic now db) (apptsMid clinic now db)
  else apptsMid clinic now db

/-- Function `_run_case_status_maintenance(clinic_id)` (src/app.py lines 209-282)
at clock instant `now`: step 1 marks ripe `pending` cases `No Show`
(rowcount `to_no_show`); step 2, only when `to_no_show` is nonzero, marks
late live appointments of `no show` cases `No Show`; step 3 archives
`no show` cases with a 24-hours-past appointment (rowcount
`archived_from_no_show`); step 4, only when that count is nonzero, marks
appointments of archived cases `Removed`. All four statements commit
together. -/
def run_case_status_maintenance (clinic : Nat) (now : Int) (db : DB) : MaintResult :=
  ⟨⟨casesFinal clinic now db, apptsFinal clinic now db⟩,
    toNoShowCount clinic now db, archivedCount clinic now db⟩

/-- Iterated sweeps: each list entry is a `(clinic_id, now)` invocation of
`_run_case_status_maintenance` (the sweep runs on every staff page load). -/
def runSweeps : List (Nat × Int) → DB → DB
  | [], db => db
  | r :: rest, db => runSweeps rest (run_case_status_maintenance r.1 r.2 db).db

/-- Outcome of a staff lifecycle operation: success, or the `NotFound`
path ("Appointment not found." / "Case not found." flash + redirect). -/
inductive OpOutcome where
  | ok
  | notFound
deriving DecidableEq

/-- The ownership lookup `SELECT ... FROM appointments WHERE id = ? AND
clinic_id = ?` (src/app.py lines 1494-1497). -/
def find_appointment (db : DB) (aid clinic : Nat) : Option AppointmentRow :=
  db.appointments.find? fun a => a.id == aid && a.clinic_id == clinic

/-- The ownership lookup `SELECT ... FROM cases WHERE id = ? AND
clinic_id = ?` (src/app.py lines 1806-1813). -/
def find_case (db : DB) (cid clinic : Nat) : Option CaseRow :=
  db.cases.find? fun c => c.id == cid && c.clinic_id == clinic

/-- Route handler `approve_appointment` (src/app.py lines 1478-1520): look the
appointment up under the clinic (else NotFound); set its status to
`Approved`; set the owning case's status to `Pending` when
`LOWER(COALESCE(case_status, 'pending'))` is in
`('pending', 'queued', 'scheduled')`. -/
def approve_appointment (aid clinic : Nat) (db : DB) : OpOutcome × DB :=
  match find_appointment db aid clinic with
  | none => (.notFound, db)
  | some appt =>
    let appts := db.appointments.map fun a =>
      if a.id == aid && a.clinic_id == clinic then setApptStatus "Approved" a else a
    let cases := db.cases.map fun c =>
      if c.id == appt.case_id && c.clinic_id == clinic
          && ["pending", "queued", "scheduled"].contains (lcoal c.case_status "pending") then
        setCaseStatus "Pending" c
      else c
    (.ok, ⟨cases, appts⟩)

/-- Route handler `remove_appointment` (src/app.py lines 1522-1546): NO existence
lookup — one unconditional `UPDATE appointments SET status = 'Removed'
WHERE id = ? AND clinic_id = ?` followed by a success flash, whatever the
rowcount. -/
def remove_appointment (aid clinic : Nat) (db : DB) : OpOutcome × DB :=
  (.ok, { db with appointments := db.appointments.map fun a =>
      if a.id == aid && a.clinic_id == clinic then setApptStatus "Removed" a else a })

/-- The scalar subquery of `complete_patient_case` (src/app.py lines
1875-1881): the id of the case's appointment in the clinic that is
greatest under `ORDER BY datetime(appointment_datetime) DESC, id DESC`,
if any. -/
def latestApptIdFor (db : DB) (cid clinic : Nat) : Option Nat :=
  ((db.appointments.filter fun a => a.case_id == cid && a.clinic_id == clinic).foldl
    (fun acc a =>
      match acc with
      | none => some a
      | some b =>
        if b.appointment_datetime < a.appointment_datetime
            || (b.appointment_datetime == a.appointment_datetime && b.id < a.id) then
          some a
        else some b)
    none).map (fun a => a.id)

/-- Route handler `complete_patient_case` (src/app.py lines 1831-1889): look the case
up under the clinic (else NotFound); set its status to `Completed`; set
the single most-recently-scheduled appointment of the case to `Completed`
(an empty scalar subquery matches no appointment row). -/
def complete_patient_case (cid clinic : Nat) (db : DB) : OpOutcome × DB :=
  match find_case db cid clinic with
  | none => (.notFound, db)
  | some _ =>
    let cases := db.cases.map fun c =>
      if c.id == cid && c.clinic_id == clinic then setCaseStatus "Completed" c else c
    let appts :=
      match latestApptIdFor db cid clinic with
      | none => db.appointments
      | some i => db.appointments.map fun a =>
          if a.id == i then setApptStatus "Completed" a else a
    (.ok, ⟨cases, appts⟩)

/-- Route handler `delete_patient_case` — the staff archive operation (src/app.py lines
1786-1829): look the case up under the clinic (else NotFound); set its
status to `archived`. No other statement runs. -/
def delete_patient_case (cid clinic : Nat) (db : DB) : OpOutcome × DB :=
  match find_case db cid clinic with
  | none => (.notFound, db)
  | some _ =>
    (.ok, { db with cases := db.cases.map fun c =>
        if c.id == cid && c.clinic_id == clinic then setCaseStatus "archived" c else c })

/-- The intake-form fields read by `pre_screening_submit` (src/app.py
lines 467-497), as the raw posted strings (`request.form.get(..., "")`);
the handler strips each one on read, which the embedding does below. -/
structure IntakeForm where
  form_type : String
  type_of_exposure : String
  exposure_date : String
  exposure_time : String
  wound_description : String
  spontaneous_bleeding : String
  induced_bleeding : String
  patient_prev_immunization : String
  prev_vaccine_date : String
  animal_type : String
  other_animal : String
  animal_status : String
  animal_vaccination : String
  local_treatment : String
  other_treatment : String
  place_of_exposure : String
  place_of_exposure_other : String
  affected_area : String
  affected_area_other : String
  tetanus_immunization : String
  tetanus_date : String
  hrtig_immunization : String
  hrtig_date : String
  full_name : String
  age : String
  barangay : String
  contact_number : String
  email_address : String
deriving DecidableEq

/-- The validation block of `pre_screening_submit` (src/app.py lines
499-524), over the stripped fields, in source order. -/
def intake_validation_errors (f : IntakeForm) : List String :=
  let e₁ := if strTrim f.type_of_exposure = "" then ["Type of exposure is required."] else []
  let e₂ := if strTrim f.exposure_date = "" then ["Exposure date is required."] else []
  let e₃ := if strTrim f.animal_type = "" then ["Type of animal is required."] else []
  let e₄ := if strTrim f.animal_status = "" then ["Animal status is required."] else []
  let e₅ := if strTrim f.local_treatment = "" then ["Local wound treatment is required."] else []
  let e₆ := if strTrim f.place_of_exposure = "" then ["Place of exposure is required."] else []
  let e₇ := if strTrim f.place_of_exposure = "Other" ∧ strTrim f.place_of_exposure_other = "" then
      ["Please specify the other place of exposure."] else []
  let e₈ := if strTrim f.affected_area = "" then ["Affected area is required."] else []
  let e₉ := if strTrim f.affected_area = "Other" ∧ strTrim f.affected_area_other = "" then
      ["Please specify the other affected area."] else []
  let e₁₀ := if strTrim f.tetanus_immunization = "" then
      ["Tetanus immunization status is required."] else []
  let e₁₁ := if strTrim f.hrtig_immunization = "" then
      ["Human tetanus immunoglobulin status is required."] else []
  let e₁₂ := if strTrim f.hrtig_immunization = "Yes" ∧ strTrim f.hrtig_date = "" then
      ["HRIG date is required when Human Tetanus Immunoglobulin is Yes."] else []
  e₁ ++ e₂ ++ e₃ ++ e₄ ++ e₅ ++ e₆ ++ e₇ ++ e₈ ++ e₉ ++ e₁₀ ++ e₁₁ ++ e₁₂

/-- The bleeding-type synthesis (src/app.py lines 610-618). -/
def bleedingTypeOf (spontaneous induced : String) : String :=
  if spontaneous == "Yes" && induced == "Yes" then "Both spontaneous and induced"
  else if spontaneous == "Yes" then "Spontaneous"
  else if induced == "Yes" then "Induced"
  else "None"

/-- The default appointment slot of the intake path (src/app.py line
685): `(datetime.now() + timedelta(days=1)).replace(hour=9, minute=0,
second=0, microsecond=0)` — tomorrow at 09:00, on the minute clock, where
`today` is the current day number. -/
def tomorrowNineAM (today : Nat) : Int :=
  ((today : Int) + 1) * (24 * 60) + 9 * 60

/-- The insertion tail of `pre_screening_submit` (src/app.py lines
590-705) for a patient whose profile rows are left to the excluded
collaborator: `none` when validation fails (lines 526-529) or when a
nonempty victim age fails `int(age)` (lines 538-543, which aborts before
any insert); otherwise the inserted case row, pre-screening detail row,
and — exactly when `form_type == "appointment"` — a `Pending`
`Pre-screening` appointment for tomorrow 09:00 (lines 681-702).
`case_id`/`appt_id` stand for the generated row ids. -/
def pre_screening_submit (f : IntakeForm) (patient_id clinic_id case_id appt_id : Nat)
    (today : Nat) : Option (CaseRow × PreScreeningRow × Option AppointmentRow) :=
  if intake_validation_errors f ≠ [] then none
  else if strTrim f.age ≠ "" ∧ (parseInt (strTrim f.age)).isNone then none
  else
    let type_of_exposure := strTrim f.type_of_exposure
    let wound_description := strTrim f.wound_description
    let animal_status := strTrim f.animal_status
    let animal_detail :=
      if strTrim f.other_animal ≠ "" ∧ strTrim f.animal_type = "Others" then
        strTrim f.animal_type ++ ": " ++ strTrim f.other_animal
      else strTrim f.animal_type
    let final_place_of_exposure :=
      if strTrim f.place_of_exposure = "Other" ∧ strTrim f.place_of_exposure_other ≠ "" then
        "Other: " ++ strTrim f.place_of_exposure_other
      else strTrim f.place_of_exposure
    let final_affected_area :=
      if strTrim f.affected_area = "Other" ∧ strTrim f.affected_area_other ≠ "" then
        "Other: " ++ strTrim f.affected_area_other
      else strTrim f.affected_area
    let final_local_treatment :=
      if strTrim f.other_treatment ≠ "" ∧ strTrim f.local_treatment = "Others" then
        strTrim f.local_treatment ++ ": " ++ strTrim f.other_treatment
      else strTrim f.local_treatment
    let bleeding_type := bleedingTypeOf (strTrim f.spontaneous_bleeding) (strTrim f.induced_bleeding)
    let risk_level := classify_pre_screening_risk (some type_of_exposure)
      (some (strTrim f.affected_area)) (some wound_description) (some bleeding_type)
      (some animal_status) (some (strTrim f.animal_vaccination))
      (some (strTrim f.patient_prev_immunization))
    let caseRow : CaseRow :=
      { id := case_id
        patient_id := patient_id
        clinic_id := clinic_id
        exposure_date := strTrim f.exposure_date
        exposure_time := if strTrim f.exposure_time ≠ "" then some (strTrim f.exposure_time) else none
        place_of_exposure := final_place_of_exposure
        affected_area := final_affected_area
        type_of_exposure := type_of_exposure
        animal_detail := animal_detail
        animal_condition := animal_status
        risk_level := risk_level
        case_status := some (if f.form_type == "appointment" then "Queued" else "Active")
        tetanus_prophylaxis_status := strTrim f.tetanus_immunization }
    let psRow : PreScreeningRow :=
      { case_id := case_id
        wound_description := if wound_description ≠ "" then some wound_description else none
        bleeding_type := bleeding_type
        local_treatment :=
          if final_local_treatment ≠ "" then some final_local_treatment else none
        patient_prev_immunization :=
          if strTrim f.patient_prev_immunization ≠ "" then
            some (strTrim f.patient_prev_immunization)
          else none }
    let apptRow : Option AppointmentRow :=
      if f.form_type == "appointment" then
        some { id := appt_id
               patient_id := patient_id
               clinic_id := clinic_id
               appointment_datetime := tomorrowNineAM today
               status := some "Pending"
               type := "Pre-screening"
               case_id := case_id }
      else none
    some (caseRow, psRow, apptRow)

/-! ### Basic facts about the row-update helpers -/

theorem setApptStatus_status (s : String) (a : AppointmentRow) :
    (setApptStatus s a).status = some s := rfl

theorem setApptStatus_fields (s : String) (a : AppointmentRow) :
    (setApptStatus s a).id = a.id ∧ (setApptStatus s a).patient_id = a.patient_id ∧
    (setApptStatus s a).clinic_id = a.clinic_id ∧
    (setApptStatus s a).appointment_datetime = a.appointment_datetime ∧
    (setApptStatus s a).type = a.type ∧ (setApptStatus s a).case_id = a.case_id :=
  ⟨rfl, rfl, rfl, rfl, rfl, rfl⟩

theorem setApptStatus_twice (s t : String) (a : AppointmentRow) :
    setApptStatus s (setApptStatus t a) = setApptStatus s a := rfl

theorem setCaseStatus_twice (s t : String) (c : CaseRow) :
    setCaseStatus s (setCaseStatus t c) = setCaseStatus s c := rfl

/-- Membership in a conditional-update map, remembering the condition. -/
theorem mem_update_map {α : Type} {l : List α} {cond : α → Bool} {f : α → α} {b : α}
    (hb : b ∈ l.map fun a => if cond a then f a else a) :
    ∃ a ∈ l, (cond a = true ∧ b = f a) ∨ (cond a = false ∧ b = a) := by
  rcases List.mem_map.mp hb with ⟨a, ha, rfl⟩
  refine ⟨a, ha, ?_⟩
  by_cases h : cond a
  · exact Or.inl ⟨h, by simp [h]⟩
  · exact Or.inr ⟨by simpa using h, by simp [h]⟩

/-- A conditional-update map whose condition never fires is the identity. -/
theorem update_map_eq_self {α : Type} {l : List α} {cond : α → Bool} {f : α → α}
    (h : ∀ a ∈ l, cond a = false) :
    (l.map fun a => if cond a then f a else a) = l := by
  conv_rhs => rw [← List.map_id l]
  exact List.map_congr_left fun a ha => by simp [h a ha]

/-- An `any` whose predicate ignores the updated field is unchanged by a
conditional status update. -/
theorem any_update_map (l : List AppointmentRow) (cond : AppointmentRow → Bool)
    (s : String) (p : AppointmentRow → Bool)
    (hp : ∀ a, p (setApptStatus s a) = p a) :
    (l.map fun a => if cond a then setApptStatus s a else a).any p = l.any p := by
  induction l with
  | nil => rfl
  | cons a t ih => by_cases h : cond a <;> simp [List.any_cons, h, hp, ih]

/-! ### Shape facts about the sweep's intermediate tables -/

theorem length_casesMid (clinic : Nat) (now : Int) (db : DB) :
    (casesMid clinic now db).length = db.cases.length := by
  simp [casesMid, casesAfterNoShowStep]

theorem length_apptsMid (clinic : Nat) (now : Int) (db : DB) :
    (apptsMid clinic now db).length = db.appointments.length := by
  unfold apptsMid
  split <;> simp [apptsAfterNoShowStep]

theorem length_casesFinal (clinic : Nat) (now : Int) (db : DB) :
    (casesFinal clinic now db).length = db.cases.length := by
  simp [casesFinal, casesAfterArchiveStep, length_casesMid]

theorem length_apptsFinal (clinic : Nat) (now : Int) (db : DB) :
    (apptsFinal clinic now db).length = db.appointments.length := by
  unfold apptsFinal
  split <;> simp [apptsAfterRemoveStep, length_apptsMid]

theorem get_of_getElem? {α : Type} {l : List α} {i : Nat} (h : i < l.length) {a : α}
    (hg : l[i]? = some a) : l.get ⟨i, h⟩ = a := by
  rw [List.getElem?_eq_getElem h] at hg
  exact Option.some.inj hg

theorem casesMid_getElem? (clinic : Nat) (now : Int) (db : DB) (i : Nat) :
    (casesMid clinic now db)[i]? = (db.cases[i]?).map fun c =>
      if caseToNoShowCond clinic now db.appointments c then setCaseStatus "No Show" c
      else c := by
  simp [casesMid, casesAfterNoShowStep, List.getElem?_map]

theorem casesMid_get (clinic : Nat) (now : Int) (db : DB) (i : Nat)
    (hi : i < db.cases.length) :
    (casesMid clinic now db).get ⟨i, by rw [length_casesMid]; exact hi⟩ =
      (if caseToNoShowCond clinic now db.appointments (db.cases.get ⟨i, hi⟩) then
        setCaseStatus "No Show" (db.cases.get ⟨i, hi⟩)
      else db.cases.get ⟨i, hi⟩) := by
  refine get_of_getElem? _ ?_
  rw [casesMid_getElem?, List.getElem?_eq_getElem hi]
  rfl

theorem casesFinal_getElem? (clinic : Nat) (now : Int) (db : DB) (i : Nat) :
    (casesFinal clinic now db)[i]? = ((casesMid clinic now db)[i]?).map fun c =>
      if caseToArchiveCond clinic now (apptsMid clinic now db) c then
        setCaseStatus "archived" c
      else c := by
  simp [casesFinal, casesAfterArchiveStep, List.getElem?_map]

theorem casesFinal_get (clinic : Nat) (now : Int) (db : DB) (i : Nat)
    (hi : i < db.cases.length) :
    (casesFinal clinic now db).get ⟨i, by rw [length_casesFinal]; exact hi⟩ =
      (if caseToArchiveCond clinic now (apptsMid clinic now db)
          ((casesMid clinic now db).get ⟨i, by rw [length_casesMid]; exact hi⟩) then
        setCaseStatus "archived"
          ((casesMid clinic now db).get ⟨i, by rw [length_casesMid]; exact hi⟩)
      else (casesMid clinic now db).get ⟨i, by rw [length_casesMid]; exact hi⟩) := by
  refine get_of_getElem? _ ?_
  rw [casesFinal_getElem?,
    List.getElem?_eq_getElem (l := casesMid clinic now db) (by rw [length_casesMid]; exact hi)]
  rfl

theorem apptsMid_getElem? (clinic : Nat) (now : Int) (db : DB) (i : Nat) :
    (apptsMid clinic now db)[i]? = (db.appointments[i]?).map fun a =>
      if toNoShowCount clinic now db != 0
          && apptToNoShowCond clinic now (casesMid clinic now db) a then
        setApptStatus "No Show" a
      else a := by
  unfold apptsMid
  by_cases h : toNoShowCount clinic now db ≠ 0
  · rw [if_pos h]
    unfold apptsAfterNoShowStep
    rw [List.getElem?_map]
    cases db.appointments[i]? with
    | none => rfl
    | some a => simp [bne_iff_ne, h]
  · rw [if_neg h]
    rw [not_not] at h
    cases db.appointments[i]? with
    | none => rfl
    | some a => simp [h]

theorem apptsMid_get (clinic : Nat) (now : Int) (db : DB) (i : Nat)
    (hi : i < db.appointments.length) :
    (apptsMid clinic now db).get ⟨i, by rw [length_apptsMid]; exact hi⟩ =
      db.appointments.get ⟨i, hi⟩ ∨
    (apptsMid clinic now db).get ⟨i, by rw [length_apptsMid]; exact hi⟩ =
      setApptStatus "No Show" (db.appointments.get ⟨i, hi⟩) := by
  have hg : (apptsMid clinic now db).get ⟨i, by rw [length_apptsMid]; exact hi⟩ =
      (if toNoShowCount clinic now db != 0
          && apptToNoShowCond clinic now (casesMid clinic now db)
            (db.appointments.get ⟨i, hi⟩) then
        setApptStatus "No Show" (db.appointments.get ⟨i, hi⟩)
      else db.appointments.get ⟨i, hi⟩) := by
    refine get_of_getElem? _ ?_
    rw [apptsMid_getElem?, List.getElem?_eq_getElem hi]
    rfl
  rw [hg]
  split
  · exact Or.inr rfl
  · exact Or.inl rfl

theorem apptsFinal_getElem? (clinic : Nat) (now : Int) (db : DB) (i : Nat) :
    (apptsFinal clinic now db)[i]? = ((apptsMid clinic now db)[i]?).map fun a =>
      if archivedCount clinic now db != 0
          && apptRemoveCond clinic (casesFinal clinic now db) a then
        setApptStatus "Removed" a
      else a := by
  unfold apptsFinal
  by_cases h : archivedCount clinic now db ≠ 0
  · rw [if_pos h]
    unfold apptsAfterRemoveStep
    rw [List.getElem?_map]
    cases (apptsMid clinic now db)[i]? with
    | none => rfl
    | some a => simp [bne_iff_ne, h]
  · rw [if_neg h]
    rw [not_not] at h
    cases (apptsMid clinic now db)[i]? with
    | none => rfl
    | some a => simp [h]

theorem apptsFinal_get (clinic : Nat) (now : Int) (db : DB) (i : Nat)
    (hi : i < db.appointments.length) :
    (apptsFinal clinic now db).get ⟨i, by rw [length_apptsFinal]; exact hi⟩ =
      db.appointments.get ⟨i, hi⟩ ∨
    (apptsFinal clinic now db).get ⟨i, by rw [length_apptsFinal]; exact hi⟩ =
      setApptStatus "No Show" (db.appointments.get ⟨i, hi⟩) ∨
    (apptsFinal clinic now db).get ⟨i, by rw [length_apptsFinal]; exact hi⟩ =
      setApptStatus "Removed" (db.appointments.get ⟨i, hi⟩) := by
  have hmid := apptsMid_get clinic now db i hi
  have hg : (apptsFinal clinic now db).get ⟨i, by rw [length_apptsFinal]; exact hi⟩ =
      (if archivedCount clinic now db != 0
          && apptRemoveCond clinic (casesFinal clinic now db)
            ((apptsMid clinic now db).get ⟨i, by rw [length_apptsMid]; exact hi⟩) then
        setApptStatus "Removed"
          ((apptsMid clinic now db).get ⟨i, by rw [length_apptsMid]; exact hi⟩)
      else (apptsMid clinic now db).get ⟨i, by rw [length_apptsMid]; exact hi⟩) := by
    refine get_of_getElem? _ ?_
    rw [apptsFinal_getElem?,
      List.getElem?_eq_getElem (l := apptsMid clinic now db)
        (by rw [length_apptsMid]; exact hi)]
    rfl
  rw [hg]
  rcases hmid with hmid | hmid <;> rw [hmid] <;> split
  · exact Or.inr (Or.inr rfl)
  · exact Or.inl rfl
  · exact Or.inr (Or.inr (setApptStatus_twice _ _ _))
  · exact Or.inr (Or.inl rfl)

/-- Every appointment row after the sweep is an input row, possibly with
its status overwritten to `No Show` or `Removed`. -/
theorem apptsMid_origin (clinic : Nat) (now : Int) (db : DB) {b : AppointmentRow}
    (hb : b ∈ apptsMid clinic now db) :
    ∃ a ∈ db.appointments, b = a ∨ b = setApptStatus "No Show" a := by
  unfold apptsMid at hb
  split at hb
  · unfold apptsAfterNoShowStep at hb
    obtain ⟨a, ha, h⟩ := mem_update_map hb
    rcases h with ⟨_, hba⟩ | ⟨_, hba⟩
    · exact ⟨a, ha, Or.inr hba⟩
    · exact ⟨a, ha, Or.inl hba⟩
  · exact ⟨b, hb, Or.inl rfl⟩

theorem apptsFinal_origin (clinic : Nat) (now : Int) (db : DB) {b : AppointmentRow}
    (hb : b ∈ apptsFinal clinic now db) :
    ∃ a ∈ db.appointments,
      b = a ∨ b = setApptStatus "No Show" a ∨ b = setApptStatus "Removed" a := by
  unfold apptsFinal at hb
  split at hb
  · unfold apptsAfterRemoveStep at hb
    obtain ⟨m, hm, h⟩ := mem_update_map hb
    obtain ⟨a, ha, hma⟩ := apptsMid_origin clinic now db hm
    rcases h with ⟨_, hbm⟩ | ⟨_, hbm⟩
    · rcases hma with hma | hma
      · exact ⟨a, ha, Or.inr (Or.inr (by rw [hbm, hma]))⟩
      · exact ⟨a, ha, Or.inr (Or.inr (by rw [hbm, hma, setApptStatus_twice]))⟩
    · rcases hma with hma | hma
      · exact ⟨a, ha, Or.inl (hbm.trans hma)⟩
      · exact ⟨a, ha, Or.inr (Or.inl (hbm.trans hma))⟩
  · obtain ⟨a, ha, hma⟩ := apptsMid_origin clinic now db hb
    rcases hma with hma | hma
    · exact ⟨a, ha, Or.inl hma⟩
    · exact ⟨a, ha, Or.inr (Or.inl hma)⟩

/-- An `any` over the sweep's appointment tables is unchanged when the
predicate ignores the status field. -/
theorem any_apptsMid (clinic : Nat) (now : Int) (db : DB) (p : AppointmentRow → Bool)
    (hp : ∀ s a, p (setApptStatus s a) = p a) :
    (apptsMid clinic now db).any p = db.appointments.any p := by
  unfold apptsMid
  split
  · exact any_update_map _ _ _ p (hp _)
  · rfl

theorem any_apptsFinal_eq_mid (clinic : Nat) (now : Int) (db : DB)
    (p : AppointmentRow → Bool) (hp : ∀ s a, p (setApptStatus s a) = p a) :
    (apptsFinal clinic now db).any p = (apptsMid clinic now db).any p := by
  unfold apptsFinal
  split
  · exact any_update_map _ _ _ p (hp _)
  · rfl

/-- A case whose status was just overwritten to a non-"pending" value
cannot satisfy sweep step 1's clause. -/
theorem caseToNoShowCond_of_status (clinic : Nat) (now : Int)
    (appts : List AppointmentRow) (c : CaseRow) (s : String)
    (hs : (strLower s == "pending") = false) :
    caseToNoShowCond clinic now appts (setCaseStatus s c) = false := by
  unfold caseToNoShowCond
  have hl : lcoal (setCaseStatus s c).case_status "pending" = strLower s := rfl
  rw [hl, hs]
  simp

/-- A case whose status was just overwritten to a non-"no show" value
cannot satisfy sweep step 3's clause. -/
theorem caseToArchiveCond_of_status (clinic : Nat) (now : Int)
    (appts : List AppointmentRow) (c : CaseRow) (s : String)
    (hs : (strLower s == "no show") = false) :
    caseToArchiveCond clinic now appts (setCaseStatus s c) = false := by
  unfold caseToArchiveCond
  have hl : lcoal (setCaseStatus s c).case_status "" = strLower s := rfl
  rw [hl, hs]
  simp

/-- An appointment whose status was overwritten by the sweep is no longer
in a live status, so it no longer triggers step 1's `EXISTS`. -/
theorem apptTriggersNoShow_overwritten (now : Int) (c : CaseRow) (a : AppointmentRow)
    (s : String) (hs : liveApptStatuses.contains (strLower s) = false) :
    apptTriggersNoShow now c (setApptStatus s a) = false := by
  unfold apptTriggersNoShow
  have hl : lcoal (setApptStatus s a).status "" = strLower s := rfl
  rw [hl, hs]
  simp

/-- Sweep step 1's clause stays false when re-read against the post-sweep
appointments: overwritten statuses are never live. -/
theorem caseToNoShowCond_apptsFinal (clinic : Nat) (now : Int) (db : DB) (c : CaseRow)
    (h : caseToNoShowCond clinic now db.appointments c = false) :
    caseToNoShowCond clinic now (apptsFinal clinic now db) c = false := by
  unfold caseToNoShowCond at h ⊢
  cases hany : db.appointments.any (apptTriggersNoShow now c) with
  | true =>
    rw [hany, Bool.and_true] at h
    rw [h, Bool.false_and]
  | false =>
    have hfin : (apptsFinal clinic now db).any (apptTriggersNoShow now c) = false := by
      rw [List.any_eq_false] at hany ⊢
      intro b hb
      obtain ⟨a, ha, horigin⟩ := apptsFinal_origin clinic now db hb
      rcases horigin with h1 | h1 | h1
      · rw [h1]; exact hany a ha
      · rw [h1, apptTriggersNoShow_overwritten now c a "No Show" (by decide)]
        exact Bool.false_ne_true
      · rw [h1, apptTriggersNoShow_overwritten now c a "Removed" (by decide)]
        exact Bool.false_ne_true
    rw [hfin, Bool.and_false]

/-- Sweep step 3's clause reads the same whether evaluated against the
mid-sweep or final appointments: only statuses differ, which it ignores. -/
theorem caseToArchiveCond_final_eq_mid (clinic : Nat) (now : Int) (db : DB)
    (c : CaseRow) :
    caseToArchiveCond clinic now (apptsFinal clinic now db) c
      = caseToArchiveCond clinic now (apptsMid clinic now db) c := by
  unfold caseToArchiveCond
  congr 1
  exact any_apptsFinal_eq_mid clinic now db _ (fun s a => rfl)

/-- After a sweep, no case still satisfies step 1's clause. -/
theorem noShowCond_final_false (clinic : Nat) (now : Int) (db : DB) :
    ∀ c ∈ casesFinal clinic now db,
      caseToNoShowCond clinic now (apptsFinal clinic now db) c = false := by
  intro c' hc'
  unfold casesFinal casesAfterArchiveStep at hc'
  obtain ⟨c1, hc1, h3⟩ := mem_update_map hc'
  rcases h3 with ⟨_, h3e⟩ | ⟨_, h3e⟩
  · rw [h3e]; exact caseToNoShowCond_of_status _ _ _ _ _ (by decide)
  · rw [h3e]
    unfold casesMid casesAfterNoShowStep at hc1
    obtain ⟨c0, _, h1⟩ := mem_update_map hc1
    rcases h1 with ⟨_, h1e⟩ | ⟨h1f, h1e⟩
    · rw [h1e]; exact caseToNoShowCond_of_status _ _ _ _ _ (by decide)
    · rw [h1e]; exact caseToNoShowCond_apptsFinal clinic now db c0 h1f

/-- After a sweep, no case still satisfies step 3's clause. -/
theorem archiveCond_final_false (clinic : Nat) (now : Int) (db : DB) :
    ∀ c ∈ casesFinal clinic now db,
      caseToArchiveCond clinic now (apptsFinal clinic now db) c = false := by
  intro c' hc'
  unfold casesFinal casesAfterArchiveStep at hc'
  obtain ⟨c1, _, h3⟩ := mem_update_map hc'
  rcases h3 with ⟨_, h3e⟩ | ⟨h3f, h3e⟩
  · rw [h3e]; exact caseToArchiveCond_of_status _ _ _ _ _ (by decide)
  · rw [h3e, caseToArchiveCond_final_eq_mid]
    exact h3f

/-- C2: the maintenance sweep is idempotent — running it a second time at
the same clock instant returns the very same database state and reports
zero in both counters (`to_no_show` and `archived_from_no_show`). -/
theorem run_maintenance_idempotent (clinic : Nat) (now : Int) (db : DB) :
    run_case_status_maintenance clinic now (run_case_status_maintenance clinic now db).db
      = ⟨(run_case_status_maintenance clinic now db).db, 0, 0⟩ := by
  set db1 := (run_case_status_maintenance clinic now db).db with hdb1
  have hcases : db1.cases = casesFinal clinic now db := rfl
  have happts : db1.appointments = apptsFinal clinic now db := rfl
  have hA : ∀ c ∈ db1.cases, caseToNoShowCond clinic now db1.appointments c = false := by
    rw [hcases, happts]; exact noShowCond_final_false clinic now db
  have hB : ∀ c ∈ db1.cases, caseToArchiveCond clinic now db1.appointments c = false := by
    rw [hcases, happts]; exact archiveCond_final_false clinic now db
  have h1 : toNoShowCount clinic now db1 = 0 := by
    unfold toNoShowCount
    rw [List.length_eq_zero, List.filter_eq_nil_iff]
    intro c hc
    simp [hA c hc]
  have h2 : casesMid clinic now db1 = db1.cases := by
    unfold casesMid casesAfterNoShowStep
    exact update_map_eq_self hA
  have h3 : apptsMid clinic now db1 = db1.appointments := by
    unfold apptsMid
    rw [h1]
    simp
  have h4 : archivedCount clinic now db1 = 0 := by
    unfold archivedCount
    rw [h2, h3, List.length_eq_zero, List.filter_eq_nil_iff]
    intro c hc
    simp [hB c hc]
  have h5 : casesFinal clinic now db1 = db1.cases := by
    unfold casesFinal casesAfterArchiveStep
    rw [h2, h3]
    exact update_map_eq_self hB
  have h6 : apptsFinal clinic now db1 = db1.appointments := by
    unfold apptsFinal
    rw [h4]
    simp [h3]
  show (⟨⟨casesFinal clinic now db1, apptsFinal clinic now db1⟩,
      toNoShowCount clinic now db1, archivedCount clinic now db1⟩ : MaintResult)
    = ⟨db1, 0, 0⟩
  rw [h5, h6, h1, h4]

theorem run_maintenance_cases_length (clinic : Nat) (now : Int) (db : DB) :
    (run_case_status_maintenance clinic now db).db.cases.length = db.cases.length :=
  length_casesFinal clinic now db

theorem run_maintenance_appts_length (clinic : Nat) (now : Int) (db : DB) :
    (run_case_status_maintenance clinic now db).db.appointments.length
      = db.appointments.length :=
  length_apptsFinal clinic now db

theorem runSweeps_cases_length (runs : List (Nat × Int)) (db : DB) :
    (runSweeps runs db).cases.length = db.cases.length := by
  induction runs generalizing db with
  | nil => rfl
  | cons r rest ih =>
    show (runSweeps rest (run_case_status_maintenance r.1 r.2 db).db).cases.length = _
    rw [ih]
    exact run_maintenance_cases_length r.1 r.2 db

/-- One sweep can only move a case into status `No Show` when some live
appointment of the case was at least 10 hours past at sweep time. -/
theorem sweep_no_show_needs_ripe_appt (clinic : Nat) (now : Int) (db : DB) (i : Nat)
    (hi : i < db.cases.length)
    (hafter : ((run_case_status_maintenance clinic now db).db.cases.get
      ⟨i, by rw [run_maintenance_cases_length]; exact hi⟩).case_status = some "No Show")
    (hbefore : (db.cases.get ⟨i, hi⟩).case_status ≠ some "No Show") :
    ∃ a ∈ db.appointments, a.case_id = (db.cases.get ⟨i, hi⟩).id ∧
      a.clinic_id = (db.cases.get ⟨i, hi⟩).clinic_id ∧
      liveApptStatuses.contains (lcoal a.status "") = true ∧
      a.appointment_datetime ≤ now - 10 * 60 := by
  have hget := casesFinal_get clinic now db i hi
  have hmidget := casesMid_get clinic now db i hi
  have hafter' : ((casesFinal clinic now db).get
      ⟨i, by rw [length_casesFinal]; exact hi⟩).case_status = some "No Show" := hafter
  by_cases hcond1 : caseToNoShowCond clinic now db.appointments (db.cases.get ⟨i, hi⟩) = true
  · unfold caseToNoShowCond at hcond1
    simp only [Bool.and_eq_true, beq_iff_eq] at hcond1
    obtain ⟨⟨_, _⟩, hany⟩ := hcond1
    rw [List.any_eq_true] at hany
    obtain ⟨a, ha, htrig⟩ := hany
    unfold apptTriggersNoShow at htrig
    simp only [Bool.and_eq_true, beq_iff_eq, decide_eq_true_eq] at htrig
    obtain ⟨⟨⟨h1, h2⟩, h3⟩, h4⟩ := htrig
    exact ⟨a, ha, h1, h2, h3, h4⟩
  · exfalso
    have hc1 : caseToNoShowCond clinic now db.appointments (db.cases.get ⟨i, hi⟩) = false := by
      revert hcond1
      cases caseToNoShowCond clinic now db.appointments (db.cases.get ⟨i, hi⟩) <;> simp
    rw [hc1] at hmidget
    simp only [Bool.false_eq_true, if_false] at hmidget
    rw [hmidget] at hget
    by_cases hcond3 : caseToArchiveCond clinic now (apptsMid clinic now db)
        (db.cases.get ⟨i, hi⟩) = true
    · rw [if_pos hcond3] at hget
      rw [hget] at hafter'
      have himp : (some "archived" : Option String) = some "No Show" := hafter'
      exact absurd himp (by decide)
    · have hc3 : caseToArchiveCond clinic now (apptsMid clinic now db)
          (db.cases.get ⟨i, hi⟩) = false := by
        revert hcond3
        cases caseToArchiveCond clinic now (apptsMid clinic now db)
          (db.cases.get ⟨i, hi⟩) <;> simp
      rw [hc3] at hget
      simp only [Bool.false_eq_true, if_false] at hget
      rw [hget] at hafter'
      exact hbefore hafter'

/-- A case none of whose appointments is ripe (10 hours past) or stale
(24 hours past) at sweep time is untouched by one sweep. -/
theorem casesFinal_unchanged_of_future (clinic : Nat) (now : Int) (db : DB) (i : Nat)
    (hi : i < db.cases.length)
    (hfut : ∀ a ∈ db.appointments, a.case_id = (db.cases.get ⟨i, hi⟩).id →
      now < a.appointment_datetime) :
    (casesFinal clinic now db).get ⟨i, by rw [length_casesFinal]; exact hi⟩
      = db.cases.get ⟨i, hi⟩ := by
  have hcond1 : caseToNoShowCond clinic now db.appointments (db.cases.get ⟨i, hi⟩) = false := by
    unfold caseToNoShowCond
    have hany : db.appointments.any (apptTriggersNoShow now (db.cases.get ⟨i, hi⟩))
        = false := by
      rw [List.any_eq_false]
      intro a ha hcontra
      unfold apptTriggersNoShow at hcontra
      simp only [Bool.and_eq_true, beq_iff_eq, decide_eq_true_eq] at hcontra
      obtain ⟨⟨⟨hcid, _⟩, _⟩, htime⟩ := hcontra
      have := hfut a ha hcid
      omega
    rw [hany, Bool.and_false]
  have hcond3 : caseToArchiveCond clinic now (apptsMid clinic now db)
      (db.cases.get ⟨i, hi⟩) = false := by
    unfold caseToArchiveCond
    have hany : (apptsMid clinic now db).any (fun a =>
        a.case_id == (db.cases.get ⟨i, hi⟩).id
          && a.clinic_id == (db.cases.get ⟨i, hi⟩).clinic_id
          && a.appointment_datetime ≤ now - 24 * 60) = false := by
      rw [any_apptsMid clinic now db (fun a =>
          a.case_id == (db.cases.get ⟨i, hi⟩).id
            && a.clinic_id == (db.cases.get ⟨i, hi⟩).clinic_id
            && a.appointment_datetime ≤ now - 24 * 60) (fun s a => rfl),
        List.any_eq_false]
      intro a ha hcontra
      simp only [Bool.and_eq_true, beq_iff_eq, decide_eq_true_eq] at hcontra
      obtain ⟨⟨hcid, _⟩, htime⟩ := hcontra
      have := hfut a ha hcid
      omega
    rw [hany, Bool.and_false]
  have hmidget := casesMid_get clinic now db i hi
  rw [hcond1] at hmidget
  simp only [Bool.false_eq_true, if_false] at hmidget
  have hget := casesFinal_get clinic now db i hi
  rw [hmidget, hcond3] at hget
  simp only [Bool.false_eq_true, if_false] at hget
  exact hget

/-- Across any sequence of sweeps, a case whose appointments are all
scheduled in the future at each sweep instant keeps its status (in
particular it never becomes `No Show`). -/
theorem runSweeps_unchanged_of_future (runs : List (Nat × Int)) (db : DB) (i : Nat)
    (hi : i < db.cases.length)
    (hfut : ∀ r ∈ runs, ∀ a ∈ db.appointments,
      a.case_id = (db.cases.get ⟨i, hi⟩).id → r.2 < a.appointment_datetime) :
    (runSweeps runs db).cases.get ⟨i, by rw [runSweeps_cases_length]; exact hi⟩
      = db.cases.get ⟨i, hi⟩ := by
  induction runs generalizing db with
  | nil => rfl
  | cons r rest ih =>
    have hstep : (run_case_status_maintenance r.1 r.2 db).db.cases.get
        ⟨i, by rw [run_maintenance_cases_length]; exact hi⟩ = db.cases.get ⟨i, hi⟩ :=
      casesFinal_unchanged_of_future r.1 r.2 db i hi
        (fun a ha hcid => hfut r (List.mem_cons_self r rest) a ha hcid)
    have hrest : ∀ r' ∈ rest, ∀ b ∈ (run_case_status_maintenance r.1 r.2 db).db.appointments,
        b.case_id = ((run_case_status_maintenance r.1 r.2 db).db.cases.get
          ⟨i, by rw [run_maintenance_cases_length]; exact hi⟩).id →
        r'.2 < b.appointment_datetime := by
      intro r' hr' b hb hcid
      obtain ⟨a, ha, horigin⟩ := apptsFinal_origin r.1 r.2 db hb
      have hfields : b.case_id = a.case_id ∧ b.appointment_datetime = a.appointment_datetime := by
        rcases horigin with h | h | h <;> rw [h] <;> exact ⟨rfl, rfl⟩
      rw [hfields.2]
      refine hfut r' (List.mem_cons_of_mem r hr') a ha ?_
      rw [← hfields.1, hcid, hstep]
    have := ih (run_case_status_maintenance r.1 r.2 db).db
      (by rw [run_maintenance_cases_length]; exact hi) hrest
    show (runSweeps rest (run_case_status_maintenance r.1 r.2 db).db).cases.get _
      = db.cases.get ⟨i, hi⟩
    rw [← hstep]
    exact this

/-- C3: a case reaches `No Show` through one maintenance sweep only when,
at sweep time, it owns at least one appointment in a live status
(`Approved`/`Pending`/`Queued`, compared lower-cased) scheduled at least
10 hours in the past; and across any sequence of sweeps, a case all of
whose appointments are scheduled in the future at each sweep instant is
never touched at all — in particular it never becomes `No Show`, no
matter how many times the sweep runs. -/
theorem no_show_requires_ripe_appointment :
    (∀ (clinic : Nat) (now : Int) (db : DB) (i : Nat) (hi : i < db.cases.length),
      ((run_case_status_maintenance clinic now db).db.cases.get
        ⟨i, by rw [run_maintenance_cases_length]; exact hi⟩).case_status = some "No Show" →
      (db.cases.get ⟨i, hi⟩).case_status ≠ some "No Show" →
      ∃ a ∈ db.appointments, a.case_id = (db.cases.get ⟨i, hi⟩).id ∧
        a.clinic_id = (db.cases.get ⟨i, hi⟩).clinic_id ∧
        liveApptStatuses.contains (lcoal a.status "") = true ∧
        a.appointment_datetime ≤ now - 10 * 60)
    ∧ (∀ (runs : List (Nat × Int)) (db : DB) (i : Nat) (hi : i < db.cases.length),
      (∀ r ∈ runs, ∀ a ∈ db.appointments,
        a.case_id = (db.cases.get ⟨i, hi⟩).id → r.2 < a.appointment_datetime) →
      (runSweeps runs db).cases.get ⟨i, by rw [runSweeps_cases_length]; exact hi⟩
        = db.cases.get ⟨i, hi⟩) :=
  ⟨sweep_no_show_needs_ripe_appt, runSweeps_unchanged_of_future⟩

/-- A one-case clinic whose single appointment is far in the future. -/
def exDB3 : DB :=
  ⟨[⟨1, 1, 1, "2025-01-01", none, "Home", "Hand", "Bite", "Dog", "Sick",
      "Category III", some "Pending", "Yes"⟩],
    [⟨1, 1, 1, 5000, some "Pending", "Pre-screening", 1⟩]⟩

/-- Witness for C3: two sweeps before the only appointment's slot leave
the case exactly as it was. -/
theorem no_show_requires_ripe_appointment_witness :
    (runSweeps [(1, 100), (1, 200)] exDB3).cases.get
      ⟨0, by rw [runSweeps_cases_length]; decide⟩ = exDB3.cases.get ⟨0, by decide⟩ :=
  no_show_requires_ripe_appointment.2 [(1, 100), (1, 200)] exDB3 0 (by decide) (by decide)

theorem apptsMid_get_eq (clinic : Nat) (now : Int) (db : DB) (i : Nat)
    (hi : i < db.appointments.length) :
    (apptsMid clinic now db).get ⟨i, by rw [length_apptsMid]; exact hi⟩ =
      (if toNoShowCount clinic now db != 0
          && apptToNoShowCond clinic now (casesMid clinic now db)
            (db.appointments.get ⟨i, hi⟩) then
        setApptStatus "No Show" (db.appointments.get ⟨i, hi⟩)
      else db.appointments.get ⟨i, hi⟩) := by
  refine get_of_getElem? _ ?_
  rw [apptsMid_getElem?, List.getElem?_eq_getElem hi]
  rfl

theorem apptsFinal_get_eq (clinic : Nat) (now : Int) (db : DB) (i : Nat)
    (hi : i < db.appointments.length) :
    (apptsFinal clinic now db).get ⟨i, by rw [length_apptsFinal]; exact hi⟩ =
      (if archivedCount clinic now db != 0
          && apptRemoveCond clinic (casesFinal clinic now db)
            ((apptsMid clinic now db).get ⟨i, by rw [length_apptsMid]; exact hi⟩) then
        setApptStatus "Removed"
          ((apptsMid clinic now db).get ⟨i, by rw [length_apptsMid]; exact hi⟩)
      else (apptsMid clinic now db).get ⟨i, by rw [length_apptsMid]; exact hi⟩) := by
  refine get_of_getElem? _ ?_
  rw [apptsFinal_getElem?,
    List.getElem?_eq_getElem (l := apptsMid clinic now db)
      (by rw [length_apptsMid]; exact hi)]
  rfl

/-- Two pending-for-10-hours appointments: one on a case that is already
`No Show` before the sweep, one on a `Pending` case that step 1 is about
to transition. -/
def exDB4 : DB :=
  ⟨[⟨1, 1, 1, "2025-01-01", none, "Home", "Hand", "Bite", "Dog", "Sick",
      "Category III", some "No Show", "Yes"⟩,
    ⟨2, 1, 1, "2025-01-01", none, "Home", "Hand", "Bite", "Dog", "Sick",
      "Category III", some "Pending", "Yes"⟩],
    [⟨1, 1, 1, 0, some "Pending", "Pre-screening", 1⟩,
     ⟨2, 1, 1, 0, some "Pending", "Pre-screening", 2⟩]⟩

/-- Counterexample to C4 as stated: at `now = 700`, step 1 transitions
only case 2, yet step 2 also sets appointment 1 — whose owning case 1 was
already `No Show` before the sweep and was not transitioned by step 1 —
to `No Show`. -/
theorem step2_hits_preexisting_no_show_case :
    ((run_case_status_maintenance 1 700 exDB4).db.appointments.get
        ⟨0, by rw [run_maintenance_appts_length]; decide⟩).status = some "No Show"
    ∧ (exDB4.appointments.get ⟨0, by decide⟩).status = some "Pending"
    ∧ (exDB4.appointments.get ⟨0, by decide⟩).case_id = 1
    ∧ (exDB4.cases.get ⟨0, by decide⟩).id = 1
    ∧ (exDB4.cases.get ⟨0, by decide⟩).case_status = some "No Show"
    ∧ toNoShowCount 1 700 exDB4 = 1
    ∧ caseToNoShowCond 1 700 exDB4.appointments (exDB4.cases.get ⟨0, by decide⟩)
        = false := by
  decide

/-- C4 amended: step 2 sets status `No Show` on an appointment (that was
not already `No Show`) exactly in the runs where step 1 transitioned at
least one case (`to_no_show` nonzero), and only when the appointment
satisfies step 2's clause — belongs to the clinic, is still in a live
status, is at least 10 hours past, and its owning case is (lower-cased)
`no show` after step 1, which includes cases that were already `No Show`
before the sweep, not only those step 1 just transitioned; an appointment
whose case is not `no show` at that point (in particular a merely-late
appointment of an unaffected case) is never set to `No Show`. -/
theorem step2_characterization (clinic : Nat) (now : Int) (db : DB) (i : Nat)
    (hi : i < db.appointments.length)
    (hset : ((run_case_status_maintenance clinic now db).db.appointments.get
      ⟨i, by rw [run_maintenance_appts_length]; exact hi⟩).status = some "No Show")
    (hwas : (db.appointments.get ⟨i, hi⟩).status ≠ some "No Show") :
    toNoShowCount clinic now db ≠ 0
    ∧ apptToNoShowCond clinic now (casesMid clinic now db)
        (db.appointments.get ⟨i, hi⟩) = true := by
  have hfin := apptsFinal_get_eq clinic now db i hi
  have hmid := apptsMid_get_eq clinic now db i hi
  have hset' : ((apptsFinal clinic now db).get
      ⟨i, by rw [length_apptsFinal]; exact hi⟩).status = some "No Show" := hset
  rw [hfin] at hset'
  by_cases h4 : (archivedCount clinic now db != 0
      && apptRemoveCond clinic (casesFinal clinic now db)
        ((apptsMid clinic now db).get ⟨i, by rw [length_apptsMid]; exact hi⟩)) = true
  · rw [if_pos h4] at hset'
    have himp : (some "Removed" : Option String) = some "No Show" := hset'
    exact absurd himp (by decide)
  · rw [if_neg h4] at hset'
    rw [hmid] at hset'
    by_cases h2 : (toNoShowCount clinic now db != 0
        && apptToNoShowCond clinic now (casesMid clinic now db)
          (db.appointments.get ⟨i, hi⟩)) = true
    · rw [Bool.and_eq_true] at h2
      refine ⟨?_, h2.2⟩
      have := h2.1
      simpa [bne_iff_ne] using this
    · rw [if_neg h2] at hset'
      exact absurd hset' hwas

/-- Witness for C4's amended theorem at the concrete two-case clinic. -/
theorem step2_characterization_witness :
    toNoShowCount 1 700 exDB4 ≠ 0
    ∧ apptToNoShowCond 1 700 (casesMid 1 700 exDB4)
        (exDB4.appointments.get ⟨0, by decide⟩) = true :=
  step2_characterization 1 700 exDB4 0 (by decide) (by decide) (by decide)

/-- A conditional-update map that never fires leaves the list intact. -/
theorem map_eq_self {α : Type} {l : List α} {f : α → α} (h : ∀ a ∈ l, f a = a) :
    l.map f = l := by
  conv_rhs => rw [← List.map_id l]
  exact List.map_congr_left h

/-- One appointment of a foreign clinic (clinic 2); clinic 1 owns
nothing. -/
def exDB5 : DB := ⟨[], [⟨1, 1, 2, 0, some "Pending", "Pre-screening", 1⟩]⟩

/-- Counterexample to C5 as stated: `remove` called by clinic 1 on the
foreign appointment id 1 does NOT fail with NotFound — it reports success
(the handler has no ownership lookup) — although it mutates nothing. -/
theorem remove_reports_success_on_foreign_id :
    (remove_appointment 1 1 exDB5).1 = OpOutcome.ok
    ∧ (remove_appointment 1 1 exDB5).1 ≠ OpOutcome.notFound
    ∧ (remove_appointment 1 1 exDB5).2 = exDB5
    ∧ find_appointment exDB5 1 1 = none
    ∧ (find_appointment exDB5 1 2).isSome = true := by
  decide

/-- C5 amended: on an appointment/case id that does not exist under the
requesting clinic (missing entirely or owned by another clinic),
`approve`, `complete` and `archive` fail with NotFound and mutate no
rows; `remove` also mutates no rows but reports success instead of
NotFound. -/
theorem tenant_isolation_not_found (db : DB) (aid cid clinic : Nat) :
    (find_appointment db aid clinic = none →
      approve_appointment aid clinic db = (OpOutcome.notFound, db))
    ∧ (find_case db cid clinic = none →
      complete_patient_case cid clinic db = (OpOutcome.notFound, db)
        ∧ delete_patient_case cid clinic db = (OpOutcome.notFound, db))
    ∧ (find_appointment db aid clinic = none →
      remove_appointment aid clinic db = (OpOutcome.ok, db)) := by
  refine ⟨?_, ?_, ?_⟩
  · intro h
    unfold approve_appointment
    rw [h]
  · intro h
    constructor
    · unfold complete_patient_case
      rw [h]
    · unfold delete_patient_case
      rw [h]
  · intro h
    unfold remove_appointment
    have hid : (db.appointments.map fun a =>
        if a.id == aid && a.clinic_id == clinic then setApptStatus "Removed" a else a)
        = db.appointments := by
      apply update_map_eq_self
      intro a ha
      have hnone := List.find?_eq_none.mp h a ha
      cases hcond : (a.id == aid && a.clinic_id == clinic)
      · rfl
      · exact absurd hcond hnone
    rw [hid]

/-- Witness for C5's amended theorem: concrete NotFound and remove-success
outcomes on the foreign-clinic database. -/
theorem tenant_isolation_not_found_witness :
    approve_appointment 1 1 exDB5 = (OpOutcome.notFound, exDB5)
    ∧ complete_patient_case 1 1 exDB5 = (OpOutcome.notFound, exDB5)
    ∧ delete_patient_case 1 1 exDB5 = (OpOutcome.notFound, exDB5)
    ∧ remove_appointment 1 1 exDB5 = (OpOutcome.ok, exDB5) :=
  ⟨(tenant_isolation_not_found exDB5 1 1 1).1 (by decide),
    ((tenant_isolation_not_found exDB5 1 1 1).2.1 (by decide)).1,
    ((tenant_isolation_not_found exDB5 1 1 1).2.1 (by decide)).2,
    (tenant_isolation_not_found exDB5 1 1 1).2.2 (by decide)⟩

theorem archive_cases_length (cid clinic : Nat) (db : DB) :
    (delete_patient_case cid clinic db).2.cases.length = db.cases.length := by
  unfold delete_patient_case
  cases hf : find_case db cid clinic <;> simp

/-- Shape of the staff archive operation once the ownership lookup
succeeds. -/
theorem archive_eq_of_found (cid clinic : Nat) (db : DB) (c0 : CaseRow)
    (h : find_case db cid clinic = some c0) :
    delete_patient_case cid clinic db = (OpOutcome.ok,
      { db with cases := db.cases.map fun c =>
          if c.id == cid && c.clinic_id == clinic then setCaseStatus "archived" c
          else c }) := by
  unfold delete_patient_case
  rw [h]

/-- C7: the staff archive operation on an existing case of the clinic
succeeds, sets that case's status to `archived`, and changes nothing
else — the appointments table is untouched, every non-targeted case row
is exactly as before, and every other field of the archived case row is
preserved. -/
theorem archive_only_sets_status (cid clinic : Nat) (db : DB) (c0 : CaseRow)
    (h : find_case db cid clinic = some c0) :
    (delete_patient_case cid clinic db).1 = OpOutcome.ok
    ∧ (delete_patient_case cid clinic db).2.appointments = db.appointments
    ∧ ∀ (j : Nat) (hj : j < db.cases.length),
        (((db.cases.get ⟨j, hj⟩).id = cid ∧ (db.cases.get ⟨j, hj⟩).clinic_id = clinic) →
          ((delete_patient_case cid clinic db).2.cases.get
              ⟨j, by rw [archive_cases_length]; exact hj⟩).case_status = some "archived"
          ∧ ((delete_patient_case cid clinic db).2.cases.get
              ⟨j, by rw [archive_cases_length]; exact hj⟩)
            = setCaseStatus "archived" (db.cases.get ⟨j, hj⟩))
        ∧ (¬((db.cases.get ⟨j, hj⟩).id = cid ∧ (db.cases.get ⟨j, hj⟩).clinic_id = clinic) →
          ((delete_patient_case cid clinic db).2.cases.get
              ⟨j, by rw [archive_cases_length]; exact hj⟩) = db.cases.get ⟨j, hj⟩) := by
  refine ⟨?_, ?_, ?_⟩
  · rw [archive_eq_of_found cid clinic db c0 h]
  · rw [archive_eq_of_found cid clinic db c0 h]
  · intro j hj
    constructor
    · intro hmatch
      have hres : ((delete_patient_case cid clinic db).2.cases.get
          ⟨j, by rw [archive_cases_length]; exact hj⟩)
          = setCaseStatus "archived" (db.cases.get ⟨j, hj⟩) := by
        refine get_of_getElem? _ ?_
        rw [archive_eq_of_found cid clinic db c0 h]
        show (db.cases.map fun c =>
          if c.id == cid && c.clinic_id == clinic then setCaseStatus "archived" c
          else c)[j]? = _
        rw [List.getElem?_map, List.getElem?_eq_getElem hj]
        simp only [Option.map_some']
        have hc : (db.cases[j].id == cid && db.cases[j].clinic_id == clinic) = true := by
          rw [Bool.and_eq_true, beq_iff_eq, beq_iff_eq]
          exact hmatch
        rw [if_pos hc]
        rfl
      exact ⟨by rw [hres]; rfl, hres⟩
    · intro hmatch
      have hmatch' : ¬(db.cases[j].id = cid ∧ db.cases[j].clinic_id = clinic) := hmatch
      refine get_of_getElem? _ ?_
      rw [archive_eq_of_found cid clinic db c0 h]
      show (db.cases.map fun c =>
        if c.id == cid && c.clinic_id == clinic then setCaseStatus "archived" c
        else c)[j]? = _
      rw [List.getElem?_map, List.getElem?_eq_getElem hj]
      simp only [Option.map_some']
      have hc : (db.cases[j].id == cid && db.cases[j].clinic_id == clinic) = false := by
        by_cases e1 : db.cases[j].id = cid
        · by_cases e2 : db.cases[j].clinic_id = clinic
          · exact absurd ⟨e1, e2⟩ hmatch'
          · simp [e2]
        · simp [e1]
      rw [hc]
      simp

/-- A two-case clinic (one case with an appointment) for the archive
frame witness. -/
def exDB7 : DB :=
  ⟨[⟨1, 1, 1, "2025-01-01", none, "Home", "Hand", "Bite", "Dog", "Sick",
      "Category III", some "Pending", "Yes"⟩,
    ⟨2, 2, 1, "2025-01-02", none, "Farm", "Leg", "Scratch", "Cat", "Healthy",
      "Category II", some "Active", "No"⟩],
    [⟨1, 1, 1, 540, some "Approved", "Pre-screening", 1⟩]⟩

/-- Witness for C7: archiving case 1 of the concrete clinic keeps the
appointments table and the other case intact and only flips case 1's
status. -/
theorem archive_only_sets_status_witness :
    (delete_patient_case 1 1 exDB7).1 = OpOutcome.ok
    ∧ (delete_patient_case 1 1 exDB7).2.appointments = exDB7.appointments
    ∧ ((delete_patient_case 1 1 exDB7).2.cases.get
        ⟨0, by rw [archive_cases_length]; decide⟩).case_status = some "archived"
    ∧ ((delete_patient_case 1 1 exDB7).2.cases.get
        ⟨1, by rw [archive_cases_length]; decide⟩) = exDB7.cases.get ⟨1, by decide⟩ := by
  have hfound : find_case exDB7 1 1 = some (exDB7.cases.get ⟨0, by decide⟩) := by decide
  have hmain := archive_only_sets_status 1 1 exDB7 (exDB7.cases.get ⟨0, by decide⟩) hfound
  refine ⟨hmain.1, hmain.2.1, ?_, ?_⟩
  · exact ((hmain.2.2 0 (by decide)).1 (by decide)).1
  · exact (hmain.2.2 1 (by decide)).2 (by decide)

theorem approve_appts_length (aid clinic : Nat) (db : DB) :
    (approve_appointment aid clinic db).2.appointments.length
      = db.appointments.length := by
  unfold approve_appointment
  cases hf : find_appointment db aid clinic <;> simp

theorem approve_cases_length (aid clinic : Nat) (db : DB) :
    (approve_appointment aid clinic db).2.cases.length = db.cases.length := by
  unfold approve_appointment
  cases hf : find_appointment db aid clinic <;> simp

/-- Shape of the approve operation once the ownership lookup succeeds. -/
theorem approve_eq_of_found (aid clinic : Nat) (db : DB) (appt : AppointmentRow)
    (h : find_appointment db aid clinic = some appt) :
    approve_appointment aid clinic db = (OpOutcome.ok,
      ⟨db.cases.map fun c =>
          if c.id == appt.case_id && c.clinic_id == clinic
              && ["pending", "queued", "scheduled"].contains (lcoal c.case_status "pending") then
            setCaseStatus "Pending" c
          else c,
        db.appointments.map fun a =>
          if a.id == aid && a.clinic_id == clinic then setApptStatus "Approved" a else a⟩) := by
  unfold approve_appointment
  rw [h]

/-- Approving twice is the same as approving once: the second call leaves
the whole state unchanged and still succeeds. -/
theorem approve_idempotent_aux (aid clinic : Nat) (db : DB) (appt : AppointmentRow)
    (h : find_appointment db aid clinic = some appt) :
    approve_appointment aid clinic ((approve_appointment aid clinic db).2)
      = (OpOutcome.ok, (approve_appointment aid clinic db).2) := by
  have hshape := approve_eq_of_found aid clinic db appt h
  set db1 := (approve_appointment aid clinic db).2 with hdb1
  have hcases1 : db1.cases = db.cases.map fun c =>
      if c.id == appt.case_id && c.clinic_id == clinic
          && ["pending", "queued", "scheduled"].contains (lcoal c.case_status "pending") then
        setCaseStatus "Pending" c
      else c := by
    rw [hdb1, hshape]
  have happts1 : db1.appointments = db.appointments.map fun a =>
      if a.id == aid && a.clinic_id == clinic then setApptStatus "Approved" a else a := by
    rw [hdb1, hshape]
  have hfind1 : find_appointment db1 aid clinic = some (setApptStatus "Approved" appt) := by
    unfold find_appointment at h ⊢
    rw [happts1, List.find?_map]
    have hpf : ((fun a => a.id == aid && a.clinic_id == clinic) ∘ (fun a =>
        if a.id == aid && a.clinic_id == clinic then setApptStatus "Approved" a else a))
        = (fun a => a.id == aid && a.clinic_id == clinic) := by
      funext a
      by_cases hc : (a.id == aid && a.clinic_id == clinic) = true
      · simp only [Function.comp_apply, if_pos hc]
        rfl
      · simp only [Function.comp_apply, if_neg hc]
    rw [hpf, h]
    have hpa : (appt.id == aid && appt.clinic_id == clinic) = true := by
      have hfs := List.find?_some h
      exact hfs
    simp only [Option.map_some']
    rw [if_pos hpa]
  rw [approve_eq_of_found aid clinic db1 (setApptStatus "Approved" appt) hfind1]
  have hmapappts : (db1.appointments.map fun a =>
      if a.id == aid && a.clinic_id == clinic then setApptStatus "Approved" a else a)
      = db1.appointments := by
    apply map_eq_self
    intro b hb
    rw [happts1] at hb
    obtain ⟨a, _, hcase⟩ := mem_update_map hb
    rcases hcase with ⟨hct, hbe⟩ | ⟨hcf, hbe⟩
    · have hcb : (b.id == aid && b.clinic_id == clinic) = true := by
        rw [hbe]; exact hct
      rw [if_pos hcb, hbe, setApptStatus_twice]
    · have hcb : (b.id == aid && b.clinic_id == clinic) = false := by
        rw [hbe]; exact hcf
      rw [hcb]
      simp
  have hmapcases : (db1.cases.map fun c =>
      if c.id == (setApptStatus "Approved" appt).case_id && c.clinic_id == clinic
          && ["pending", "queued", "scheduled"].contains (lcoal c.case_status "pending") then
        setCaseStatus "Pending" c
      else c) = db1.cases := by
    apply map_eq_self
    intro b hb
    rw [hcases1] at hb
    obtain ⟨c, _, hcase⟩ := mem_update_map hb
    rcases hcase with ⟨hct, hbe⟩ | ⟨hcf, hbe⟩
    · have hcb : (b.id == (setApptStatus "Approved" appt).case_id && b.clinic_id == clinic
          && ["pending", "queued", "scheduled"].contains (lcoal b.case_status "pending"))
          = true := by
        rw [hbe]
        have hct' := hct
        rw [Bool.and_eq_true] at hct'
        rw [Bool.and_eq_true]
        refine ⟨hct'.1, ?_⟩
        show (["pending", "queued", "scheduled"].contains (lcoal (some "Pending") "pending"))
          = true
        decide
      rw [if_pos hcb, hbe, setCaseStatus_twice]
    · have hcb : (b.id == (setApptStatus "Approved" appt).case_id && b.clinic_id == clinic
          && ["pending", "queued", "scheduled"].contains (lcoal b.case_status "pending"))
          = false := by
        rw [hbe]; exact hcf
      rw [hcb]
      simp
  rw [hmapappts, hmapcases]

/-- C6: when the appointment exists under the clinic, approve succeeds;
it sets exactly the targeted appointment's status to `Approved` and
leaves every other appointment row intact; assuming the data model's
closed case-status domain, the owning case's status becomes `Pending` if
and only if its current status is in {Pending, Queued, Scheduled} (any
other status leaves the whole case row unchanged), and non-owning case
rows are untouched; and calling approve a second time on the
already-`Approved` appointment changes nothing and still succeeds. -/
theorem approve_spec (aid clinic : Nat) (db : DB) (appt : AppointmentRow)
    (h : find_appointment db aid clinic = some appt)
    (henum : ∀ c ∈ db.cases, c.case_status ∈ [some "Active", some "Queued", some "Pending",
      some "No Show", some "Completed", some "archived"]) :
    (approve_appointment aid clinic db).1 = OpOutcome.ok
    ∧ (∀ (i : Nat) (hi : i < db.appointments.length),
        (((db.appointments.get ⟨i, hi⟩).id = aid
            ∧ (db.appointments.get ⟨i, hi⟩).clinic_id = clinic) →
          (approve_appointment aid clinic db).2.appointments.get
              ⟨i, by rw [approve_appts_length]; exact hi⟩
            = setApptStatus "Approved" (db.appointments.get ⟨i, hi⟩))
        ∧ (¬((db.appointments.get ⟨i, hi⟩).id = aid
            ∧ (db.appointments.get ⟨i, hi⟩).clinic_id = clinic) →
          (approve_appointment aid clinic db).2.appointments.get
              ⟨i, by rw [approve_appts_length]; exact hi⟩ = db.appointments.get ⟨i, hi⟩))
    ∧ (∀ (j : Nat) (hj : j < db.cases.length),
        (((db.cases.get ⟨j, hj⟩).id = appt.case_id
            ∧ (db.cases.get ⟨j, hj⟩).clinic_id = clinic) →
          ((((approve_appointment aid clinic db).2.cases.get
              ⟨j, by rw [approve_cases_length]; exact hj⟩).case_status = some "Pending")
            ↔ (db.cases.get ⟨j, hj⟩).case_status
                ∈ [some "Pending", some "Queued", some "Scheduled"])
          ∧ ((db.cases.get ⟨j, hj⟩).case_status
                ∉ [some "Pending", some "Queued", some "Scheduled"] →
            (approve_appointment aid clinic db).2.cases.get
              ⟨j, by rw [approve_cases_length]; exact hj⟩ = db.cases.get ⟨j, hj⟩))
        ∧ (¬((db.cases.get ⟨j, hj⟩).id = appt.case_id
            ∧ (db.cases.get ⟨j, hj⟩).clinic_id = clinic) →
          (approve_appointment aid clinic db).2.cases.get
            ⟨j, by rw [approve_cases_length]; exact hj⟩ = db.cases.get ⟨j, hj⟩))
    ∧ approve_appointment aid clinic ((approve_appointment aid clinic db).2)
        = (OpOutcome.ok, (approve_appointment aid clinic db).2) := by
  refine ⟨?_, ?_, ?_, approve_idempotent_aux aid clinic db appt h⟩
  · rw [approve_eq_of_found aid clinic db appt h]
  · intro i hi
    constructor
    · intro hmatch
      refine get_of_getElem? _ ?_
      rw [approve_eq_of_found aid clinic db appt h]
      show (db.appointments.map fun a =>
        if a.id == aid && a.clinic_id == clinic then setApptStatus "Approved" a
        else a)[i]? = _
      rw [List.getElem?_map, List.getElem?_eq_getElem hi]
      simp only [Option.map_some']
      have hc : (db.appointments[i].id == aid && db.appointments[i].clinic_id == clinic)
          = true := by
        rw [Bool.and_eq_true, beq_iff_eq, beq_iff_eq]
        exact hmatch
      rw [if_pos hc]
      rfl
    · intro hmatch
      have hmatch' : ¬(db.appointments[i].id = aid
          ∧ db.appointments[i].clinic_id = clinic) := hmatch
      refine get_of_getElem? _ ?_
      rw [approve_eq_of_found aid clinic db appt h]
      show (db.appointments.map fun a =>
        if a.id == aid && a.clinic_id == clinic then setApptStatus "Approved" a
        else a)[i]? = _
      rw [List.getElem?_map, List.getElem?_eq_getElem hi]
      simp only [Option.map_some']
      have hc : (db.appointments[i].id == aid && db.appointments[i].clinic_id == clinic)
          = false := by
        by_cases e1 : db.appointments[i].id = aid
        · by_cases e2 : db.appointments[i].clinic_id = clinic
          · exact absurd ⟨e1, e2⟩ hmatch'
          · simp [e2]
        · simp [e1]
      rw [hc]
      simp
  · intro j hj
    have hrow : (approve_appointment aid clinic db).2.cases.get
        ⟨j, by rw [approve_cases_length]; exact hj⟩
        = (if (db.cases[j].id == appt.case_id && db.cases[j].clinic_id == clinic
            && ["pending", "queued", "scheduled"].contains
              (lcoal db.cases[j].case_status "pending")) = true then
          setCaseStatus "Pending" db.cases[j]
        else db.cases[j]) := by
      refine get_of_getElem? _ ?_
      rw [approve_eq_of_found aid clinic db appt h]
      show (db.cases.map fun c =>
        if c.id == appt.case_id && c.clinic_id == clinic
            && ["pending", "queued", "scheduled"].contains (lcoal c.case_status "pending") then
          setCaseStatus "Pending" c
        else c)[j]? = _
      rw [List.getElem?_map, List.getElem?_eq_getElem hj]
      simp only [Option.map_some']
    constructor
    · intro hmatch
      by_cases hmem : (db.cases.get ⟨j, hj⟩).case_status
          ∈ [some "Pending", some "Queued", some "Scheduled"]
      · have hmem' : db.cases[j].case_status = some "Pending"
            ∨ db.cases[j].case_status = some "Queued"
            ∨ db.cases[j].case_status = some "Scheduled" := by
          simpa using hmem
        have hcond : (db.cases[j].id == appt.case_id && db.cases[j].clinic_id == clinic
            && ["pending", "queued", "scheduled"].contains
              (lcoal db.cases[j].case_status "pending")) = true := by
          rw [Bool.and_eq_true]
          refine ⟨by rw [Bool.and_eq_true, beq_iff_eq, beq_iff_eq]; exact hmatch, ?_⟩
          rcases hmem' with hs | hs | hs <;> rw [hs] <;> decide
        rw [if_pos hcond] at hrow
        refine ⟨⟨fun _ => hmem, fun _ => ?_⟩, fun hnot => absurd hmem hnot⟩
        rw [hrow]
        rfl
      · have he := henum (db.cases.get ⟨j, hj⟩) (List.get_mem db.cases j hj)
        have he' : db.cases[j].case_status = some "Active"
            ∨ db.cases[j].case_status = some "Queued"
            ∨ db.cases[j].case_status = some "Pending"
            ∨ db.cases[j].case_status = some "No Show"
            ∨ db.cases[j].case_status = some "Completed"
            ∨ db.cases[j].case_status = some "archived" := by
          simpa using he
        have hmem' : ¬(db.cases[j].case_status = some "Pending"
            ∨ db.cases[j].case_status = some "Queued"
            ∨ db.cases[j].case_status = some "Scheduled") := by
          intro hcontra
          exact hmem (by simpa using hcontra)
        have hC : (["pending", "queued", "scheduled"].contains
            (lcoal db.cases[j].case_status "pending")) = false := by
          rcases he' with hs | hs | hs | hs | hs | hs
          · rw [hs]; decide
          · exact absurd (Or.inr (Or.inl hs)) hmem'
          · exact absurd (Or.inl hs) hmem'
          · rw [hs]; decide
          · rw [hs]; decide
          · rw [hs]; decide
        have hcond : (db.cases[j].id == appt.case_id && db.cases[j].clinic_id == clinic
            && ["pending", "queued", "scheduled"].contains
              (lcoal db.cases[j].case_status "pending")) = false := by
          rw [hC, Bool.and_false]
        rw [hcond] at hrow
        simp only [Bool.false_eq_true, if_false] at hrow
        refine ⟨⟨fun heq => ?_, fun hm => absurd hm hmem⟩, fun _ => hrow⟩
        rw [hrow] at heq
        exact absurd (by simp [show db.cases[j].case_status = some "Pending" from heq]) hmem'
    · intro hnotown
      have hnotown' : ¬(db.cases[j].id = appt.case_id
          ∧ db.cases[j].clinic_id = clinic) := hnotown
      have hcond : (db.cases[j].id == appt.case_id && db.cases[j].clinic_id == clinic
          && ["pending", "queued", "scheduled"].contains
            (lcoal db.cases[j].case_status "pending")) = false := by
        have h12 : (db.cases[j].id == appt.case_id && db.cases[j].clinic_id == clinic)
            = false := by
          by_cases e1 : db.cases[j].id = appt.case_id
          · by_cases e2 : db.cases[j].clinic_id = clinic
            · exact absurd ⟨e1, e2⟩ hnotown'
            · simp [e2]
          · simp [e1]
        rw [h12, Bool.false_and]
      rw [hcond] at hrow
      simp only [Bool.false_eq_true, if_false] at hrow
      exact hrow

/-- A clinic with one `Queued` case and its `Pending` appointment, for
the approve witness. -/
def exDB6 : DB :=
  ⟨[⟨1, 1, 1, "2025-01-01", none, "Home", "Hand", "Bite", "Dog", "Sick",
      "Category III", some "Queued", "Yes"⟩],
    [⟨1, 1, 1, 1980, some "Pending", "Pre-screening", 1⟩]⟩

/-- Witness for C6: approving appointment 1 succeeds, approves the
appointment row, moves the `Queued` case to `Pending`, and a second
approve is a no-op. -/
theorem approve_spec_witness :
    (approve_appointment 1 1 exDB6).1 = OpOutcome.ok
    ∧ (approve_appointment 1 1 exDB6).2.appointments.get
        ⟨0, by rw [approve_appts_length]; decide⟩
      = setApptStatus "Approved" (exDB6.appointments.get ⟨0, by decide⟩)
    ∧ (((approve_appointment 1 1 exDB6).2.cases.get
        ⟨0, by rw [approve_cases_length]; decide⟩).case_status = some "Pending"
      ↔ (exDB6.cases.get ⟨0, by decide⟩).case_status
          ∈ [some "Pending", some "Queued", some "Scheduled"])
    ∧ approve_appointment 1 1 ((approve_appointment 1 1 exDB6).2)
        = (OpOutcome.ok, (approve_appointment 1 1 exDB6).2) := by
  have hfound : find_appointment exDB6 1 1 = some (exDB6.appointments.get ⟨0, by decide⟩) := by
    decide
  have hmain := approve_spec 1 1 exDB6 (exDB6.appointments.get ⟨0, by decide⟩) hfound
    (by decide)
  refine ⟨hmain.1, ?_, ?_, hmain.2.2.2⟩
  · exact (hmain.2.1 0 (by decide)).1 (by decide)
  · exact ((hmain.2.2.1 0 (by decide)).1 (by decide)).1

theorem apptRemoveCond_setApptStatus (clinic : Nat) (cs : List CaseRow) (s : String)
    (a : AppointmentRow) :
    apptRemoveCond clinic cs (setApptStatus s a) = apptRemoveCond clinic cs a := rfl

/-- C10: when the sweep's step 3 archived at least one case
(`archived_from_no_show` nonzero), its final step sets status `Removed`
on every clinic appointment whose owning case is (lower-cased) `archived`
after step 3 — including cases archived earlier by the staff archive
operation, and regardless of the appointment's own status or timestamp;
conversely, when `archived_from_no_show` is zero the sweep marks no
appointment `Removed` (any `Removed` in the output was already there). -/
theorem sweep_removed_iff_archived (clinic : Nat) (now : Int) (db : DB) (i : Nat)
    (hi : i < db.appointments.length) :
    (archivedCount clinic now db ≠ 0 →
      apptRemoveCond clinic (casesFinal clinic now db) (db.appointments.get ⟨i, hi⟩)
        = true →
      ((run_case_status_maintenance clinic now db).db.appointments.get
        ⟨i, by rw [run_maintenance_appts_length]; exact hi⟩).status = some "Removed")
    ∧ (archivedCount clinic now db = 0 →
      ((run_case_status_maintenance clinic now db).db.appointments.get
        ⟨i, by rw [run_maintenance_appts_length]; exact hi⟩).status = some "Removed" →
      (db.appointments.get ⟨i, hi⟩).status = some "Removed") := by
  have hfin := apptsFinal_get_eq clinic now db i hi
  have hmid := apptsMid_get_eq clinic now db i hi
  constructor
  · intro hcnt hcond
    show ((apptsFinal clinic now db).get
      ⟨i, by rw [length_apptsFinal]; exact hi⟩).status = some "Removed"
    rw [hfin]
    have hc : (archivedCount clinic now db != 0
        && apptRemoveCond clinic (casesFinal clinic now db)
          ((apptsMid clinic now db).get ⟨i, by rw [length_apptsMid]; exact hi⟩)) = true := by
      rw [Bool.and_eq_true]
      constructor
      · simpa [bne_iff_ne] using hcnt
      · rw [hmid]
        by_cases h2 : (toNoShowCount clinic now db != 0
            && apptToNoShowCond clinic now (casesMid clinic now db)
              (db.appointments.get ⟨i, hi⟩)) = true
        · rw [if_pos h2, apptRemoveCond_setApptStatus]
          exact hcond
        · rw [if_neg h2]
          exact hcond
    rw [if_pos hc]
    rfl
  · intro hzero hres
    have hres' : ((apptsFinal clinic now db).get
        ⟨i, by rw [length_apptsFinal]; exact hi⟩).status = some "Removed" := hres
    rw [hfin] at hres'
    have hb0 : (archivedCount clinic now db != 0) = false := by simp [hzero]
    rw [hb0, Bool.false_and] at hres'
    simp only [Bool.false_eq_true, if_false] at hres'
    rw [hmid] at hres'
    by_cases h2 : (toNoShowCount clinic now db != 0
        && apptToNoShowCond clinic now (casesMid clinic now db)
          (db.appointments.get ⟨i, hi⟩)) = true
    · rw [if_pos h2] at hres'
      have himp : (some "No Show" : Option String) = some "Removed" := hres'
      exact absurd himp (by decide)
    · rw [if_neg h2] at hres'
      exact hres'

/-- One sweep-archived `No Show` case (stale appointment) plus one case
archived earlier by staff whose appointment is recent and `Approved`. -/
def exDB10 : DB :=
  ⟨[⟨1, 1, 1, "2025-01-01", none, "Home", "Hand", "Bite", "Dog", "Sick",
      "Category III", some "No Show", "Yes"⟩,
    ⟨2, 2, 1, "2025-01-02", none, "Farm", "Leg", "Scratch", "Cat", "Healthy",
      "Category II", some "archived", "No"⟩],
    [⟨1, 1, 1, 0, some "Pending", "Pre-screening", 1⟩,
     ⟨2, 2, 1, 1990, some "Approved", "Follow-up", 2⟩]⟩

/-- Witness for C10: the sweep archives case 1, and step 4 then marks the
recent `Approved` appointment of the staff-archived case 2 `Removed`. -/
theorem sweep_removed_iff_archived_witness :
    ((run_case_status_maintenance 1 2000 exDB10).db.appointments.get
      ⟨1, by rw [run_maintenance_appts_length]; decide⟩).status = some "Removed" :=
  (sweep_removed_iff_archived 1 2000 exDB10 1 (by decide)).1 (by decide) (by decide)

/-- Any exposure whose (trimmed) type is exactly "Bite" classifies as
Category III, whatever the other inputs. -/
theorem classify_bite_cat3 (ar w b s v p : Option String) :
    classify_pre_screening_risk (some "Bite") ar w b s v p = "Category III" := by
  have h1 : (["Bite", "Contamination of Mucous Membrane"].contains
      (strTrim ((some "Bite" : Option String).getD ""))) = true := by decide
  simp only [classify_pre_screening_risk]
  rw [h1]
  simp

/-- C8 (amended): a valid intake submission whose trimmed exposure type
is "Bite" (animal status "Sick") creates a case with risk level
`Category III`; with `form_type = "appointment"` the case is created in
status `Queued` and an appointment is created for the case, scheduled
tomorrow at 09:00, with type `Pre-screening` and status `Pending` (not
`Queued`, which is what the original claim asserted). -/
theorem intake_bite_sick_spec (f : IntakeForm) (pid clinic cid aid today : Nat)
    (hexp : strTrim f.type_of_exposure = "Bite")
    (_hst : strTrim f.animal_status = "Sick")
    (herr : intake_validation_errors f = [])
    (hage : ¬(strTrim f.age ≠ "" ∧ (parseInt (strTrim f.age)).isNone))
    (hform : f.form_type = "appointment") :
    ((pre_screening_submit f pid clinic cid aid today).map fun r => r.1.risk_level)
      = some "Category III"
    ∧ ((pre_screening_submit f pid clinic cid aid today).map fun r => r.1.case_status)
      = some (some "Queued")
    ∧ ((pre_screening_submit f pid clinic cid aid today).map fun r =>
        r.2.2.map fun a => (a.status, a.appointment_datetime, a.type, a.case_id))
      = some (some (some "Pending", tomorrowNineAM today, "Pre-screening", cid)) := by
  unfold pre_screening_submit
  rw [if_neg (by simp [herr]), if_neg hage]
  refine ⟨?_, ?_, ?_⟩
  · show some (classify_pre_screening_risk (some (strTrim f.type_of_exposure))
      (some (strTrim f.affected_area)) (some (strTrim f.wound_description))
      (some (bleedingTypeOf (strTrim f.spontaneous_bleeding) (strTrim f.induced_bleeding)))
      (some (strTrim f.animal_status)) (some (strTrim f.animal_vaccination))
      (some (strTrim f.patient_prev_immunization))) = some "Category III"
    rw [hexp, classify_bite_cat3]
  · show some (some (if f.form_type == "appointment" then "Queued" else "Active"))
      = some (some "Queued")
    rw [hform]
    simp
  · show some ((if f.form_type == "appointment" then
        some (⟨aid, pid, clinic, tomorrowNineAM today, some "Pending", "Pre-screening",
          cid⟩ : AppointmentRow)
      else none).map fun a => (a.status, a.appointment_datetime, a.type, a.case_id))
      = some (some (some "Pending", tomorrowNineAM today, "Pre-screening", cid))
    rw [hform]
    simp

/-- A fully valid concrete intake form: exposure "Bite", animal "Sick",
`form_type = "appointment"`. -/
def exForm8 : IntakeForm :=
  { form_type := "appointment"
    type_of_exposure := "Bite"
    exposure_date := "2025-01-01"
    exposure_time := ""
    wound_description := ""
    spontaneous_bleeding := ""
    induced_bleeding := ""
    patient_prev_immunization := ""
    prev_vaccine_date := ""
    animal_type := "Dog"
    other_animal := ""
    animal_status := "Sick"
    animal_vaccination := ""
    local_treatment := "Washed"
    other_treatment := ""
    place_of_exposure := "Home"
    place_of_exposure_other := ""
    affected_area := "Hand"
    affected_area_other := ""
    tetanus_immunization := "Yes"
    tetanus_date := ""
    hrtig_immunization := "No"
    hrtig_date := ""
    full_name := ""
    age := ""
    barangay := ""
    contact_number := ""
    email_address := "" }

/-- The case row the concrete submission inserts. -/
def exCase8 : CaseRow :=
  ⟨1, 1, 1, "2025-01-01", none, "Home", "Hand", "Bite", "Dog", "Sick",
    "Category III", some "Queued", "Yes"⟩

/-- The pre-screening detail row the concrete submission inserts. -/
def exPS8 : PreScreeningRow := ⟨1, none, "None", some "Washed", none⟩

/-- The appointment row the concrete submission inserts. -/
def exAppt8 : AppointmentRow :=
  ⟨1, 1, 1, tomorrowNineAM 0, some "Pending", "Pre-screening", 1⟩

/-- Counterexample to C8 as stated: the Bite/Sick appointment-type
submission creates the case at Category III and status `Queued` and the
appointment for tomorrow 09:00 — but that appointment's status is
`Pending`, not `Queued`. -/
theorem intake_creates_pending_not_queued_appointment :
    pre_screening_submit exForm8 1 1 1 1 0 = some (exCase8, exPS8, some exAppt8)
    ∧ exAppt8.status = some "Pending"
    ∧ exAppt8.status ≠ some "Queued"
    ∧ exCase8.risk_level = "Category III"
    ∧ exCase8.case_status = some "Queued"
    ∧ exAppt8.appointment_datetime = tomorrowNineAM 0 := by
  decide

/-- Witness for C8's amended theorem at the concrete form. -/
theorem intake_bite_sick_spec_witness :
    ((pre_screening_submit exForm8 1 1 1 1 0).map fun r => r.1.risk_level)
      = some "Category III"
    ∧ ((pre_screening_submit exForm8 1 1 1 1 0).map fun r => r.1.case_status)
      = some (some "Queued")
    ∧ ((pre_screening_submit exForm8 1 1 1 1 0).map fun r =>
        r.2.2.map fun a => (a.status, a.appointment_datetime, a.type, a.case_id))
      = some (some (some "Pending", tomorrowNineAM 0, "Pre-screening", 1)) :=
  intake_bite_sick_spec exForm8 1 1 1 1 0 (by decide) (by decide) (by decide)
    (by decide) rfl

end RabiesResq
